import Mathlib

/-!
Verification of `src/app/services/google-charts.js`.

The service exposes one operation `load()` which performs a drop-guarded
ember-concurrency task (`loadTask`).  The task body is

    let api = yield loadJsApi();      -- injects a script if !window.google
    yield loadCoreChart(api);         -- waits for the library callback
    this.loaded = true;
    document.dispatchEvent(createEvent('googleChartsLoaded'));

We embed the service together with its host-page environment (the document
body's script elements, `window.google`, the dispatched events) as a
small-step state machine.  A live task instance sits at one of the two
suspension points (`yield` on the script load, `yield` on the chart
callback); external completions advance it.  The `.drop()` modifier means a
`perform` while an instance is live discards the new call.
-/

namespace GoogleCharts

/-- A live `loadTask` instance is suspended at one of two points:
waiting for the injected script element's onload/onerror (inside
`loadScript`, awaited from `loadJsApi`), or waiting for the
`google.load(..., \x7b callback \x7d)` completion inside `loadCoreChart`. -/
inductive Phase where
  | awaitingScript
  | awaitingCallback
deriving DecidableEq

/-- A DOM event as produced by `document.createEvent('Event')` followed by
`initEvent(name, bubbles, cancelable)`.  A plain `Event` carries no payload,
so these three fields are all there is. -/
structure Ev where
  name : String
  bubbles : Bool
  cancelable : Bool
deriving DecidableEq

/-- Embedding of `createEvent(name)` (lines 48-52): `document.createEvent('Event')`
then `event.initEvent(name, true, true)`. -/
def createEvent (name : String) : Ev :=
  { name := name, bubbles := true, cancelable := true }

/-- A record of one `document.dispatchEvent` call: the event that was
dispatched and the value of the `loaded` flag at the moment of dispatch
(the source sets `this.loaded = true` on line 16 before dispatching on
line 17, so this field witnesses the ordering of the two statements). -/
structure Dispatch where
  event : Ev
  loadedAtDispatch : Bool
deriving DecidableEq

/-- Combined state of the `GoogleChartsService` instance and its host page.
`tasks` lists the live `loadTask` instances with their suspension point
(ember-concurrency would allow several for other modifiers; `.drop()` is
what keeps the list short, and we prove that).  `scripts` counts the script
elements this component appended to `document.body`; `windowGoogle` is the
truthiness of `window.google`; `eventLog` records every
`document.dispatchEvent` performed by the task. -/
structure St where
  loaded : Bool
  tasks : List Phase
  windowGoogle : Bool
  scripts : Nat
  eventLog : List Dispatch
deriving DecidableEq

/-- Initial state: `@tracked loaded = false` (line 7), no live task, the
external global absent, no script injected, nothing dispatched. -/
def initSt : St :=
  { loaded := false, tasks := [], windowGoogle := false, scripts := 0, eventLog := [] }

/-- The four events that drive the machine: a call to `load()` (which
performs the drop-guarded task), the injected script's `onload` firing,
its `onerror` firing, and the `loadCoreChart` library callback firing. -/
inductive Act where
  | callLoad
  | scriptOk
  | scriptErr
  | chartCb
deriving DecidableEq

/-- One step of the machine.

`callLoad`: `loadTask.perform()` under `.drop()` (lines 13-19) is discarded
if an instance is live; otherwise the task body runs to its first
suspension point.  `loadJsApi` (lines 32-37) checks `window.google`: if
present, it returns the global immediately and the task proceeds into
`loadCoreChart`, suspending on its callback; if absent, `loadScript`
(lines 22-30) creates a script element, appends it to `document.body`, and
the task suspends on the script's onload/onerror.

`scriptOk`: the script's `onload` resolves; the google jsapi script has
installed `window.google`; `loadJsApi` returns it and the task proceeds
into `loadCoreChart`, suspending on the callback.

`scriptErr`: the script's `onerror` rejects the promise; the rejection
propagates out of the task body, the instance ends, and nothing else in
`loadScript` removes the appended element or retries.

`chartCb`: the `google.load` completion callback resolves the promise in
`loadCoreChart` (lines 39-46); the task sets `this.loaded = true` (line 16)
and then dispatches `createEvent('googleChartsLoaded')` (line 17) and
completes. -/
def step (s : St) (a : Act) : St :=
  match a with
  | .callLoad =>
      if s.tasks = [] then
        if s.windowGoogle then { s with tasks := [.awaitingCallback] }
        else { s with scripts := s.scripts + 1, tasks := [.awaitingScript] }
      else s
  | .scriptOk =>
      match s.tasks with
      | .awaitingScript :: rest =>
          { s with windowGoogle := true, tasks := .awaitingCallback :: rest }
      | _ => s
  | .scriptErr =>
      match s.tasks with
      | .awaitingScript :: rest => { s with tasks := rest }
      | _ => s
  | .chartCb =>
      match s.tasks with
      | .awaitingCallback :: rest =>
          let s1 := { s with loaded := true }
          { s1 with
              tasks := rest,
              eventLog := s1.eventLog ++
                [{ event := createEvent "googleChartsLoaded",
                   loadedAtDispatch := s1.loaded }] }
      | _ => s

/-- Run the machine over a sequence of actions. -/
def run (s : St) (tr : List Act) : St :=
  tr.foldl step s

/-- The action sequence of a single `load()` run in which both asynchronous
steps complete successfully: if `window.google` is already present the task
only waits for the chart callback, otherwise the injected script's onload
fires first. -/
def successTrace (s : St) : List Act :=
  if s.windowGoogle then [Act.callLoad, Act.chartCb]
  else [Act.callLoad, Act.scriptOk, Act.chartCb]

/-- Invariant behind the at-most-one-script property: as long as no script
load has failed, a script element exists only if either `window.google` is
already installed (so `loadJsApi` short-circuits any further injection) or
the task that injected it is still live (so `.drop()` blocks any further
`perform`).  A task suspended in `loadCoreChart` only exists once
`window.google` is present. -/
def ScriptInv (s : St) : Prop :=
  s.scripts ≤ 1 ∧ s.tasks.length ≤ 1 ∧
  (s.scripts = 1 → s.windowGoogle = true ∨ s.tasks ≠ []) ∧
  (Phase.awaitingCallback ∈ s.tasks → s.windowGoogle = true)

lemma run_nil (s : St) : run s [] = s := rfl

lemma run_cons (s : St) (a : Act) (tr : List Act) :
    run s (a :: tr) = run (step s a) tr := rfl

lemma run_append (s : St) (t1 t2 : List Act) :
    run s (t1 ++ t2) = run (run s t1) t2 :=
  List.foldl_append step s t1 t2

/-- One step never grows the number of live task instances past one:
`callLoad` starts an instance only from an empty list, and the external
completions only advance or remove the instance at the head. -/
lemma step_tasks_length (s : St) (a : Act) (h : s.tasks.length ≤ 1) :
    (step s a).tasks.length ≤ 1 := by
  have hrest : ∀ (p : Phase) (rest : List Phase), s.tasks = p :: rest → rest = [] := by
    intro p rest hm
    rw [hm] at h
    simpa using h
  cases a with
  | callLoad =>
      by_cases he : s.tasks = []
      · by_cases hg : s.windowGoogle <;> simp [step, he, hg]
      · simp [step, he]; exact h
  | scriptOk =>
      match hm : s.tasks with
      | [] => simp [step, hm]
      | Phase.awaitingScript :: rest => simp [step, hm, hrest _ _ hm]
      | Phase.awaitingCallback :: rest => simp [step, hm, hrest _ _ hm]
  | scriptErr =>
      match hm : s.tasks with
      | [] => simp [step, hm]
      | Phase.awaitingScript :: rest => simp [step, hm, hrest _ _ hm]
      | Phase.awaitingCallback :: rest => simp [step, hm, hrest _ _ hm]
  | chartCb =>
      match hm : s.tasks with
      | [] => simp [step, hm]
      | Phase.awaitingScript :: rest => simp [step, hm, hrest _ _ hm]
      | Phase.awaitingCallback :: rest => simp [step, hm, hrest _ _ hm]

lemma run_tasks_length (tr : List Act) (s : St) (h : s.tasks.length ≤ 1) :
    (run s tr).tasks.length ≤ 1 := by
  induction tr generalizing s with
  | nil => simpa [run_nil] using h
  | cons a tr ih => rw [run_cons]; exact ih _ (step_tasks_length s a h)

lemma step_scriptInv (s : St) (a : Act) (ha : a ≠ Act.scriptErr)
    (h : ScriptInv s) : ScriptInv (step s a) := by
  obtain ⟨h1, h2, h3, h4⟩ := h
  have hrest : ∀ (p : Phase) (rest : List Phase), s.tasks = p :: rest → rest = [] := by
    intro p rest hm
    rw [hm] at h2
    simpa using h2
  cases a with
  | callLoad =>
      by_cases he : s.tasks = []
      · by_cases hg : s.windowGoogle
        · refine ⟨?_, ?_, ?_, ?_⟩ <;> simp [step, he, hg, ScriptInv, h1]
        · have hs0 : s.scripts = 0 := by
            rcases Nat.lt_or_ge s.scripts 1 with hlt | hge
            · omega
            · have : s.scripts = 1 := by omega
              rcases h3 this with hg' | ht
              · exact absurd hg' (by simpa using hg)
              · exact absurd he ht
          refine ⟨?_, ?_, ?_, ?_⟩ <;> simp [step, he, hg, hs0]
      · simpa [step, he] using ⟨h1, h2, h3, h4⟩
  | scriptOk =>
      match hm : s.tasks with
      | [] => simpa [step, hm] using ⟨h1, h2, h3, h4⟩
      | Phase.awaitingScript :: rest =>
          have hr := hrest _ _ hm
          refine ⟨?_, ?_, ?_, ?_⟩ <;> simp [step, hm, hr, h1]
      | Phase.awaitingCallback :: rest =>
          simpa [step, hm] using ⟨h1, h2, h3, h4⟩
  | scriptErr => exact absurd rfl ha
  | chartCb =>
      match hm : s.tasks with
      | [] => simpa [step, hm] using ⟨h1, h2, h3, h4⟩
      | Phase.awaitingScript :: rest =>
          simpa [step, hm] using ⟨h1, h2, h3, h4⟩
      | Phase.awaitingCallback :: rest =>
          have hr := hrest _ _ hm
          have hg : s.windowGoogle = true := h4 (by simp [hm])
          refine ⟨?_, ?_, ?_, ?_⟩ <;> simp [step, hm, hr, h1, hg]

lemma run_scriptInv (tr : List Act) (s : St) (hnf : Act.scriptErr ∉ tr)
    (h : ScriptInv s) : ScriptInv (run s tr) := by
  induction tr generalizing s with
  | nil => simpa [run_nil] using h
  | cons a tr ih =>
      rw [run_cons]
      have ha : a ≠ Act.scriptErr := by
        intro he; exact hnf (by simp [he])
      have htl : Act.scriptErr ∉ tr := by
        intro he; exact hnf (List.mem_cons_of_mem _ he)
      exact ih _ htl (step_scriptInv s a ha h)

/-- Every dispatch record a step appends is the `googleChartsLoaded` event
built by `createEvent`, recorded with the `loaded` flag already true
(line 16 executes before line 17). -/
lemma step_eventLog (s : St) (a : Act) (d : Dispatch)
    (hd : d ∈ (step s a).eventLog) :
    d ∈ s.eventLog ∨
      d = { event := createEvent "googleChartsLoaded", loadedAtDispatch := true } := by
  cases a with
  | callLoad =>
      by_cases he : s.tasks = []
      · by_cases hg : s.windowGoogle
        · left; simpa [step, he, hg] using hd
        · left; simpa [step, he, hg] using hd
      · left; simpa [step, he] using hd
  | scriptOk =>
      match hm : s.tasks with
      | [] => left; simpa [step, hm] using hd
      | Phase.awaitingScript :: rest => left; simpa [step, hm] using hd
      | Phase.awaitingCallback :: rest => left; simpa [step, hm] using hd
  | scriptErr =>
      match hm : s.tasks with
      | [] => left; simpa [step, hm] using hd
      | Phase.awaitingScript :: rest => left; simpa [step, hm] using hd
      | Phase.awaitingCallback :: rest => left; simpa [step, hm] using hd
  | chartCb =>
      match hm : s.tasks with
      | [] => left; simpa [step, hm] using hd
      | Phase.awaitingScript :: rest => left; simpa [step, hm] using hd
      | Phase.awaitingCallback :: rest =>
          rw [step] at hd
          simp [hm] at hd
          rcases hd with hd | hd
          · left; exact hd
          · right; simp [hd]

lemma run_eventLog (tr : List Act) (s : St) (d : Dispatch)
    (hd : d ∈ (run s tr).eventLog) :
    d ∈ s.eventLog ∨
      d = { event := createEvent "googleChartsLoaded", loadedAtDispatch := true } := by
  induction tr generalizing s with
  | nil => left; simpa [run_nil] using hd
  | cons a tr ih =>
      rw [run_cons] at hd
      rcases ih _ hd with h | h
      · exact step_eventLog s a d h
      · right; exact h

/-- The `loaded` flag changes in exactly one place: the `chartCb` step taken
with a task suspended in `loadCoreChart`, which sets it to `true`
(line 16).  Every other step leaves it alone. -/
lemma step_loaded_char (s : St) (a : Act) :
    (step s a).loaded = s.loaded ∨
      (a = Act.chartCb ∧ s.tasks.head? = some Phase.awaitingCallback ∧
        (step s a).loaded = true) := by
  cases a with
  | callLoad =>
      by_cases he : s.tasks = []
      · by_cases hg : s.windowGoogle <;> left <;> simp [step, he, hg]
      · left; simp [step, he]
  | scriptOk =>
      match hm : s.tasks with
      | [] => left; simp [step, hm]
      | Phase.awaitingScript :: rest => left; simp [step, hm]
      | Phase.awaitingCallback :: rest => left; simp [step, hm]
  | scriptErr =>
      match hm : s.tasks with
      | [] => left; simp [step, hm]
      | Phase.awaitingScript :: rest => left; simp [step, hm]
      | Phase.awaitingCallback :: rest => left; simp [step, hm]
  | chartCb =>
      match hm : s.tasks with
      | [] => left; simp [step, hm]
      | Phase.awaitingScript :: rest => left; simp [step, hm]
      | Phase.awaitingCallback :: rest => right; simp [step, hm]

lemma run_loaded_monotone (tr : List Act) (s : St) (h : s.loaded = true) :
    (run s tr).loaded = true := by
  induction tr generalizing s with
  | nil => simpa [run_nil] using h
  | cons a tr ih =>
      rw [run_cons]
      refine ih _ ?_
      rcases step_loaded_char s a with hc | hc
      · rw [hc]; exact h
      · exact hc.2.2

/-- A state whose only live task is suspended in `loadCoreChart` is a fixed
point of every action other than the chart callback: `.drop()` discards new
`load()` calls and the script handlers have no task to act on. -/
lemma step_pending (s : St) (h1 : s.tasks = [Phase.awaitingCallback])
    (a : Act) (ha : a ≠ Act.chartCb) : step s a = s := by
  cases a with
  | callLoad => simp [step, h1]
  | scriptOk => simp [step, h1]
  | scriptErr => simp [step, h1]
  | chartCb => exact absurd rfl ha

/-- C1: a `load()` call made while a prior invocation is in flight is a
strict no-op on the whole state (not queued, not restarted), and along
every interleaving of calls and completions starting from the initial
state at most one execution of the load task is live. -/
theorem c1_drop_concurrent_load (tr : List Act) (s : St) (h : s.tasks ≠ []) :
    step s Act.callLoad = s ∧ (run initSt tr).tasks.length ≤ 1 :=
  ⟨by simp [step, h], run_tasks_length tr initSt (by simp [initSt])⟩

/-- Witness for C1 at the concrete state reached by one `load()` call and
the concrete interleaving of two back-to-back `load()` calls. -/
theorem c1_drop_concurrent_load_witness :
    (run initSt [Act.callLoad]).tasks ≠ [] ∧
      step (run initSt [Act.callLoad]) Act.callLoad = run initSt [Act.callLoad] ∧
      (run initSt [Act.callLoad, Act.callLoad]).tasks.length ≤ 1 :=
  ⟨by decide,
   (c1_drop_concurrent_load [Act.callLoad, Act.callLoad]
      (run initSt [Act.callLoad]) (by decide)).1,
   (c1_drop_concurrent_load [Act.callLoad, Act.callLoad]
      (run initSt [Act.callLoad]) (by decide)).2⟩

/-- C2: starting from any state with no task in flight, a run of `load()`
in which both asynchronous steps complete successfully ends with the
`loaded` flag true, exactly one new completion event dispatched during the
run, and the task finished. -/
theorem c2_success_sets_loaded_and_dispatches_once (s : St) (h : s.tasks = []) :
    (run s (successTrace s)).loaded = true ∧
      (run s (successTrace s)).eventLog.length = s.eventLog.length + 1 ∧
      (run s (successTrace s)).tasks = [] := by
  by_cases hg : s.windowGoogle <;>
    simp [successTrace, hg, run, List.foldl, step, h]

/-- Witness for C2 at the initial state. -/
theorem c2_success_sets_loaded_and_dispatches_once_witness :
    initSt.tasks = [] ∧
      (run initSt (successTrace initSt)).loaded = true ∧
      (run initSt (successTrace initSt)).eventLog.length = initSt.eventLog.length + 1 ∧
      (run initSt (successTrace initSt)).tasks = [] :=
  ⟨rfl, c2_success_sets_loaded_and_dispatches_once initSt rfl⟩

/-- C3: if the injected script fails to load, the run ends with `loaded`
still false, no event dispatched, the task gone (so the guard is
released and a subsequent `load()` really starts a new task), and exactly
the one script injection having happened (no automatic retry). -/
theorem c3_script_failure (s : St) (h1 : s.tasks = [])
    (h2 : s.windowGoogle = false) (h3 : s.loaded = false) :
    (run s [Act.callLoad, Act.scriptErr]).loaded = false ∧
      (run s [Act.callLoad, Act.scriptErr]).eventLog = s.eventLog ∧
      (run s [Act.callLoad, Act.scriptErr]).tasks = [] ∧
      (run s [Act.callLoad, Act.scriptErr]).scripts = s.scripts + 1 ∧
      (step (run s [Act.callLoad, Act.scriptErr]) Act.callLoad).tasks ≠ [] := by
  simp [run, List.foldl, step, h1, h2, h3]

/-- Witness for C3 at the initial state. -/
theorem c3_script_failure_witness :
    initSt.tasks = [] ∧ initSt.windowGoogle = false ∧ initSt.loaded = false ∧
      ((run initSt [Act.callLoad, Act.scriptErr]).loaded = false ∧
        (run initSt [Act.callLoad, Act.scriptErr]).eventLog = initSt.eventLog ∧
        (run initSt [Act.callLoad, Act.scriptErr]).tasks = [] ∧
        (run initSt [Act.callLoad, Act.scriptErr]).scripts = initSt.scripts + 1 ∧
        (step (run initSt [Act.callLoad, Act.scriptErr]) Act.callLoad).tasks ≠ []) :=
  ⟨rfl, rfl, rfl, c3_script_failure initSt rfl rfl rfl⟩

/-- C4: when `window.google` already exists and no task is in flight, a
`load()` call injects no script element, yet the task proceeds directly
into the `loadCoreChart` handshake. -/
theorem c4_google_present_skips_injection (s : St) (h1 : s.tasks = [])
    (h2 : s.windowGoogle = true) :
    (step s Act.callLoad).scripts = s.scripts ∧
      (step s Act.callLoad).tasks = [Phase.awaitingCallback] := by
  simp [step, h1, h2]

/-- Witness for C4 at a state where the global is already installed. -/
theorem c4_google_present_skips_injection_witness :
    (run initSt [Act.callLoad, Act.scriptOk, Act.chartCb]).tasks = [] ∧
      (run initSt [Act.callLoad, Act.scriptOk, Act.chartCb]).windowGoogle = true ∧
      (step (run initSt [Act.callLoad, Act.scriptOk, Act.chartCb]) Act.callLoad).scripts =
        (run initSt [Act.callLoad, Act.scriptOk, Act.chartCb]).scripts ∧
      (step (run initSt [Act.callLoad, Act.scriptOk, Act.chartCb]) Act.callLoad).tasks =
        [Phase.awaitingCallback] :=
  ⟨by decide, by decide,
   c4_google_present_skips_injection _ (by decide) (by decide)⟩

/-- C5: along every interleaving from the initial state in which no script
load fails, at most one script element is ever injected: the presence
check short-circuits injection once the global exists, and the drop guard
blocks a second injection while the first script is still loading. -/
theorem c5_at_most_one_script (tr : List Act) (h : Act.scriptErr ∉ tr) :
    (run initSt tr).scripts ≤ 1 :=
  (run_scriptInv tr initSt h (by simp [ScriptInv, initSt])).1

/-- Witness for C5 on a trace with two concurrent calls before the first
resolves, followed by a full success and a further call. -/
theorem c5_at_most_one_script_witness :
    Act.scriptErr ∉ [Act.callLoad, Act.callLoad, Act.scriptOk, Act.chartCb, Act.callLoad] ∧
      (run initSt [Act.callLoad, Act.callLoad, Act.scriptOk, Act.chartCb, Act.callLoad]).scripts ≤ 1 :=
  ⟨by decide,
   c5_at_most_one_script [Act.callLoad, Act.callLoad, Act.scriptOk, Act.chartCb, Act.callLoad]
     (by decide)⟩

/-- C6: every event this component ever dispatches is the
`googleChartsLoaded` custom event with bubbling and cancelable both
enabled and no payload, and at the moment of dispatch the `loaded` flag
has already been set true (flag first, then dispatch). -/
theorem c6_event_shape_and_order (tr : List Act) (d : Dispatch)
    (hd : d ∈ (run initSt tr).eventLog) :
    d.event.name = "googleChartsLoaded" ∧ d.event.bubbles = true ∧
      d.event.cancelable = true ∧ d.loadedAtDispatch = true := by
  rcases run_eventLog tr initSt d hd with h | h
  · simp [initSt] at h
  · simp [h, createEvent]

/-- Witness for C6 at the dispatch produced by one successful run. -/
theorem c6_event_shape_and_order_witness :
    ({ event := createEvent "googleChartsLoaded", loadedAtDispatch := true } : Dispatch) ∈
        (run initSt [Act.callLoad, Act.scriptOk, Act.chartCb]).eventLog ∧
      (createEvent "googleChartsLoaded").name = "googleChartsLoaded" ∧
      (createEvent "googleChartsLoaded").bubbles = true ∧
      (createEvent "googleChartsLoaded").cancelable = true ∧
      ({ event := createEvent "googleChartsLoaded", loadedAtDispatch := true } : Dispatch).loadedAtDispatch = true := by
  refine ⟨by decide, ?_⟩
  exact c6_event_shape_and_order [Act.callLoad, Act.scriptOk, Act.chartCb]
    { event := createEvent "googleChartsLoaded", loadedAtDispatch := true } (by decide)

/-- C7: two sequential successful `load()` calls each run the
`loadCoreChart` handshake and each dispatch a completion event: after the
first run completes, a second call again reaches the `awaitingCallback`
suspension point, and after its callback the event log holds two
dispatches while still only one script was ever injected. -/
theorem c7_sequential_runs_rerun_handshake :
    (run initSt [Act.callLoad, Act.scriptOk, Act.chartCb]).loaded = true ∧
      (run initSt [Act.callLoad, Act.scriptOk, Act.chartCb]).eventLog.length = 1 ∧
      (run initSt [Act.callLoad, Act.scriptOk, Act.chartCb]).tasks = [] ∧
      (step (run initSt [Act.callLoad, Act.scriptOk, Act.chartCb]) Act.callLoad).tasks =
        [Phase.awaitingCallback] ∧
      (run initSt [Act.callLoad, Act.scriptOk, Act.chartCb, Act.callLoad, Act.chartCb]).eventLog.length = 2 ∧
      (run initSt [Act.callLoad, Act.scriptOk, Act.chartCb, Act.callLoad, Act.chartCb]).scripts = 1 := by
  decide

/-- C8: the `loaded` flag starts false, only the chart-callback completion
of a task suspended in `loadCoreChart` can turn it true, and once true no
action (failed, dropped or repeated `load()` calls included) ever resets
it. -/
theorem c8_loaded_flag_lifecycle (s : St) (a : Act) (tr : List Act) :
    initSt.loaded = false ∧
      (s.loaded = true → (run s tr).loaded = true) ∧
      ((step s a).loaded = true →
        s.loaded = true ∨
          (a = Act.chartCb ∧ s.tasks.head? = some Phase.awaitingCallback)) := by
  refine ⟨rfl, fun h => run_loaded_monotone tr s h, fun h => ?_⟩
  rcases step_loaded_char s a with hc | hc
  · left; rw [← hc]; exact h
  · right; exact ⟨hc.1, hc.2.1⟩

/-- Witness for C8: monotonicity applied at a concrete already-loaded
state, and the only-via-callback direction applied at a concrete step that
sets the flag. -/
theorem c8_loaded_flag_lifecycle_witness :
    (run ⟨true, [], true, 1, []⟩ [Act.callLoad, Act.chartCb]).loaded = true ∧
      ((false = true) ∨
        (Act.chartCb = Act.chartCb ∧
          ([Phase.awaitingCallback] : List Phase).head? = some Phase.awaitingCallback)) :=
  ⟨(c8_loaded_flag_lifecycle ⟨true, [], true, 1, []⟩ Act.callLoad
      [Act.callLoad, Act.chartCb]).2.1 rfl,
   (c8_loaded_flag_lifecycle ⟨false, [Phase.awaitingCallback], true, 0, []⟩ Act.chartCb
      []).2.2 (by decide)⟩

/-- C9: a task suspended in `loadCoreChart` has no timeout or rejection
path: along any sequence of further events in which the library callback
never fires, the whole state is unchanged — the task stays pending, the
flag stays as it was, nothing is dispatched. -/
theorem c9_no_timeout_pending_forever (s : St) (tr : List Act)
    (h1 : s.tasks = [Phase.awaitingCallback]) (h2 : Act.chartCb ∉ tr) :
    run s tr = s := by
  revert h2
  induction tr with
  | nil => intro _; rfl
  | cons a tr ih =>
      intro h2
      have ha : a ≠ Act.chartCb := fun he => h2 (by simp [he])
      rw [run_cons, step_pending s h1 a ha]
      exact ih (fun he => h2 (List.mem_cons_of_mem _ he))

/-- Witness for C9 at a concrete pending state and a callback-free trace. -/
theorem c9_no_timeout_pending_forever_witness :
    (run initSt [Act.callLoad, Act.scriptOk]).tasks = [Phase.awaitingCallback] ∧
      Act.chartCb ∉ [Act.callLoad, Act.scriptOk, Act.scriptErr, Act.callLoad] ∧
      run (run initSt [Act.callLoad, Act.scriptOk])
          [Act.callLoad, Act.scriptOk, Act.scriptErr, Act.callLoad] =
        run initSt [Act.callLoad, Act.scriptOk] :=
  ⟨by decide, by decide,
   c9_no_timeout_pending_forever (run initSt [Act.callLoad, Act.scriptOk])
     [Act.callLoad, Act.scriptOk, Act.scriptErr, Act.callLoad] (by decide) (by decide)⟩

/-- C10: a failed script load leaves the appended element in the document
(`loadScript` has no cleanup on error), so `n` failed-then-retried
`load()` calls while the global is still absent leave `n` accumulated
script elements, with the guard released and the global still absent after
each round. -/
theorem c10_failed_retries_accumulate_scripts (n : Nat) (s : St)
    (h1 : s.tasks = []) (h2 : s.windowGoogle = false) :
    (run s (List.flatten (List.replicate n [Act.callLoad, Act.scriptErr]))).scripts =
        s.scripts + n ∧
      (run s (List.flatten (List.replicate n [Act.callLoad, Act.scriptErr]))).tasks = [] ∧
      (run s (List.flatten (List.replicate n [Act.callLoad, Act.scriptErr]))).windowGoogle = false := by
  induction n generalizing s with
  | zero => simp [run_nil, h1, h2]
  | succ n ih =>
      have hrep : List.replicate (n + 1) [Act.callLoad, Act.scriptErr] =
          [Act.callLoad, Act.scriptErr] :: List.replicate n [Act.callLoad, Act.scriptErr] :=
        rfl
      rw [hrep, List.flatten_cons, run_append]
      have hstep : run s [Act.callLoad, Act.scriptErr] =
          { s with scripts := s.scripts + 1, tasks := [] } := by
        simp [run, List.foldl, step, h1, h2]
      rw [hstep]
      obtain ⟨ha, hb, hc⟩ := ih { s with scripts := s.scripts + 1, tasks := [] } rfl h2
      refine ⟨?_, hb, hc⟩
      rw [ha]
      show s.scripts + 1 + n = s.scripts + (n + 1)
      omega

/-- Witness for C10: three failure rounds from the initial state leave
three script elements. -/
theorem c10_failed_retries_accumulate_scripts_witness :
    initSt.tasks = [] ∧ initSt.windowGoogle = false ∧
      ((run initSt (List.flatten (List.replicate 3 [Act.callLoad, Act.scriptErr]))).scripts =
          initSt.scripts + 3 ∧
        (run initSt (List.flatten (List.replicate 3 [Act.callLoad, Act.scriptErr]))).tasks = [] ∧
        (run initSt (List.flatten (List.replicate 3 [Act.callLoad, Act.scriptErr]))).windowGoogle = false) :=
  ⟨rfl, rfl, c10_failed_retries_accumulate_scripts 3 initSt rfl rfl⟩

end GoogleCharts
